import Mathlib

/-!
Verification of the bouncing-ball demo (`src/main.ts` of
`passion-ts-example`).

The demo keeps four mutable scalars — position `(x, y)` and velocity
`(dx, dy)` — plus two constants `radius = 16` and `speed = 20`, fixed at
creation.  Every frame the engine calls an update callback that advances
the position by `speed * velocity * dt` and reflects the velocity off the
viewport edges, and a draw callback that issues three drawing commands.

The numeric type of the embedding is `ℚ`: the source performs only
additions, multiplications, negations and comparisons, all of which are
modelled exactly.
-/

/-- The ball's state.  `x`, `y`, `dx`, `dy` are the four mutable `let`
scalars of `main.ts`; `radius` and `speed` are the two `const` scalars,
carried in the record so that claims about their immutability are
statable. -/
structure GameState where
  x : ℚ
  y : ℚ
  dx : ℚ
  dy : ℚ
  radius : ℚ
  speed : ℚ
deriving DecidableEq, Repr

/-- The position-advance statements of the update callback:
`x += speed * dx * dt; y += speed * dy * dt`. -/
def posUpdate (dt : ℚ) (g : GameState) : GameState :=
  { g with
    x := g.x + g.speed * g.dx * dt
    y := g.y + g.speed * g.dy * dt }

/-- The two bounce `if` statements of the update callback, executed after
the position advance.  Each axis is checked independently against the
viewport extents `w = passion.system.width`, `h = passion.system.height`;
crossing an edge negates that axis's velocity component.  Only `dx` and
`dy` are written. -/
def boundaryCheck (w h : ℚ) (g : GameState) : GameState :=
  { g with
    dx := if g.x - g.radius ≤ 0 ∨ g.x + g.radius ≥ w then -g.dx else g.dx
    dy := if g.y - g.radius ≤ 0 ∨ g.y + g.radius ≥ h then -g.dy else g.dy }

/-- The whole update callback (first argument of `passion.system.run`):
position advance followed by the boundary checks. -/
def update (w h dt : ℚ) (g : GameState) : GameState :=
  boundaryCheck w h (posUpdate dt g)

/-- A sequence of frames: fold the update callback over a list of elapsed
times. -/
def runUpdates (w h : ℚ) (dts : List ℚ) (g : GameState) : GameState :=
  dts.foldl (fun s dt => update w h dt s) g

/-- One immediate-mode drawing command issued by the draw callback. -/
inductive DrawCall where
  | cls (colorIndex : ℕ)
  | circ (x y radius : ℚ) (colorIndex : ℕ)
  | text (x y : ℚ) (s : String) (colorIndex : ℕ)
deriving DecidableEq, Repr

/-- The commands issued by the draw callback (second argument of
`passion.system.run`), in program order:
`cls(2)`, `circ(x, y, radius, 1)`,
`text(100, 50, 'Welcome to the passion engine!', 15)`. -/
def drawCalls (g : GameState) : List DrawCall :=
  [DrawCall.cls 2,
   DrawCall.circ g.x g.y g.radius 1,
   DrawCall.text 100 50 "Welcome to the passion engine!" 15]

/-- The draw callback as a state transformer: it reads `x` and `y`, writes
no state, returns no value, and emits its drawing commands. -/
def drawStep (g : GameState) : GameState × List DrawCall :=
  (g, drawCalls g)

/-- One observable step of the `DOMContentLoaded` handler.  The
constructor `diagnostic` is never emitted by the code: it is present so
that silence can be stated. -/
inductive SetupEvent where
  | engineConstructed
  | systemInit (width height : ℕ) (title : String)
  | systemRun
  | diagnostic (message : String)
deriving DecidableEq, Repr

/-- The `DOMContentLoaded` handler of `main.ts`, seen through its calls to
the engine.  `app` is the result of `document.getElementById('app')`:
`none` when the element is missing.  When it is present the handler
constructs the engine (`new Passion(app)`), calls
`system.init(360, 240, ...)` and calls `system.run` to register both
callbacks; when it is missing nothing happens. -/
def onDOMContentLoaded (app : Option Unit) : List SetupEvent :=
  match app with
  | none => []
  | some _ =>
      [SetupEvent.engineConstructed,
       SetupEvent.systemInit 360 240 "My first, but wonderful game!",
       SetupEvent.systemRun]

/-- The engine's random source, as an oracle: `seq n` is the value that
the `n`-th call of `math.rndi` returns, `calls` counts the calls made so
far. -/
structure RndState where
  seq : ℕ → ℤ
  calls : ℕ

/-- Model of `passion.math.rndi(lo, hi)`: draws the next oracle value and
advances the call counter.  The engine's contract that the result is an
integer in `[lo, hi]` enters the claims as a hypothesis on the oracle. -/
def rndi (lo hi : ℤ) (r : RndState) : ℤ × RndState :=
  (r.seq r.calls, { r with calls := r.calls + 1 })

/-- The initialization block of `main.ts`: position at the centre
`(360 / 2, 240 / 2)`, velocity from two consecutive `rndi(-5, 5)` draws,
constants `radius = 16` and `speed = 20`. -/
def initBall (r : RndState) : GameState × RndState :=
  let x : ℚ := 360 / 2
  let y : ℚ := 240 / 2
  let d1 := rndi (-5) 5 r
  let d2 := rndi (-5) 5 d1.2
  (⟨x, y, (d1.1 : ℚ), (d2.1 : ℚ), 16, 20⟩, d2.2)

/- ## Helper lemmas -/

/-- After one update, `dx` is either negated or unchanged. -/
theorem update_dx_cases (w h dt : ℚ) (g : GameState) :
    (update w h dt g).dx = -g.dx ∨ (update w h dt g).dx = g.dx := by
  simp only [update, boundaryCheck, posUpdate]
  split
  · exact Or.inl rfl
  · exact Or.inr rfl

/-- After one update, `dy` is either negated or unchanged. -/
theorem update_dy_cases (w h dt : ℚ) (g : GameState) :
    (update w h dt g).dy = -g.dy ∨ (update w h dt g).dy = g.dy := by
  simp only [update, boundaryCheck, posUpdate]
  split
  · exact Or.inl rfl
  · exact Or.inr rfl

/-- One update preserves the absolute value of each velocity component. -/
theorem update_abs_velocity (w h dt : ℚ) (g : GameState) :
    |(update w h dt g).dx| = |g.dx| ∧ |(update w h dt g).dy| = |g.dy| := by
  constructor
  · rcases update_dx_cases w h dt g with hc | hc <;> rw [hc]
    exact abs_neg g.dx
  · rcases update_dy_cases w h dt g with hc | hc <;> rw [hc]
    exact abs_neg g.dy

/-- A zero horizontal velocity component is preserved and freezes `x`. -/
theorem update_zero_dx (w h dt : ℚ) (g : GameState) (h0 : g.dx = 0) :
    (update w h dt g).dx = 0 ∧ (update w h dt g).x = g.x := by
  constructor
  · rcases update_dx_cases w h dt g with hc | hc <;> rw [hc, h0]
    exact neg_zero
  · show (posUpdate dt g).x = g.x
    simp [posUpdate, h0]

/-- A zero vertical velocity component is preserved and freezes `y`. -/
theorem update_zero_dy (w h dt : ℚ) (g : GameState) (h0 : g.dy = 0) :
    (update w h dt g).dy = 0 ∧ (update w h dt g).y = g.y := by
  constructor
  · rcases update_dy_cases w h dt g with hc | hc <;> rw [hc, h0]
    exact neg_zero
  · show (posUpdate dt g).y = g.y
    simp [posUpdate, h0]

/-- `runUpdates` preserves the absolute value of each velocity
component. -/
theorem runUpdates_abs_velocity (w h : ℚ) (dts : List ℚ) (g : GameState) :
    |(runUpdates w h dts g).dx| = |g.dx| ∧
    |(runUpdates w h dts g).dy| = |g.dy| := by
  induction dts generalizing g with
  | nil => exact ⟨rfl, rfl⟩
  | cons dt rest ih =>
      have hstep := update_abs_velocity w h dt g
      have htail := ih (update w h dt g)
      exact ⟨htail.1.trans hstep.1, htail.2.trans hstep.2⟩

/-- `runUpdates` keeps a zero `dx` at zero and never moves `x`. -/
theorem runUpdates_zero_dx (w h : ℚ) (dts : List ℚ) (g : GameState)
    (h0 : g.dx = 0) :
    (runUpdates w h dts g).dx = 0 ∧ (runUpdates w h dts g).x = g.x := by
  induction dts generalizing g with
  | nil => exact ⟨h0, rfl⟩
  | cons dt rest ih =>
      have hstep := update_zero_dx w h dt g h0
      have htail := ih (update w h dt g) hstep.1
      exact ⟨htail.1, htail.2.trans hstep.2⟩

/-- `runUpdates` keeps a zero `dy` at zero and never moves `y`. -/
theorem runUpdates_zero_dy (w h : ℚ) (dts : List ℚ) (g : GameState)
    (h0 : g.dy = 0) :
    (runUpdates w h dts g).dy = 0 ∧ (runUpdates w h dts g).y = g.y := by
  induction dts generalizing g with
  | nil => exact ⟨h0, rfl⟩
  | cons dt rest ih =>
      have hstep := update_zero_dy w h dt g h0
      have htail := ih (update w h dt g) hstep.1
      exact ⟨htail.1, htail.2.trans hstep.2⟩


/- ## Claims -/

/-- C1: for every starting state and every elapsed time `dt ≥ 0`, one call
of the update callback moves the position to
`(x + speed * dx * dt, y + speed * dy * dt)`, and the subsequent boundary
check changes only the velocity, never the position. -/
theorem c1_position_advance (w h dt : ℚ) (g : GameState) (hdt : 0 ≤ dt) :
    (update w h dt g).x = g.x + g.speed * g.dx * dt ∧
    (update w h dt g).y = g.y + g.speed * g.dy * dt ∧
    ∀ s : GameState, (boundaryCheck w h s).x = s.x ∧
      (boundaryCheck w h s).y = s.y :=
  ⟨rfl, rfl, fun _ => ⟨rfl, rfl⟩⟩

/-- Witness for C1 at `dt = 1` from the centre state. -/
theorem c1_position_advance_witness :
    (update 360 240 1 ⟨180, 120, 3, -2, 16, 20⟩).x = 180 + 20 * 3 * 1 ∧
    (update 360 240 1 ⟨180, 120, 3, -2, 16, 20⟩).y = 120 + 20 * (-2) * 1 ∧
    (boundaryCheck 360 240 ⟨1, 2, 3, 4, 16, 20⟩).x = 1 ∧
    (boundaryCheck 360 240 ⟨1, 2, 3, 4, 16, 20⟩).y = 2 := by
  have hc := c1_position_advance 360 240 1 ⟨180, 120, 3, -2, 16, 20⟩
    (by norm_num)
  exact ⟨hc.1, hc.2.1, (hc.2.2 ⟨1, 2, 3, 4, 16, 20⟩).1,
    (hc.2.2 ⟨1, 2, 3, 4, 16, 20⟩).2⟩

/-- C2: on each axis independently, the velocity component after the
update callback is the negation of the one before exactly when the
boundary condition holds at the advanced position, and is unchanged
otherwise. -/
theorem c2_boundary_negation (w h dt : ℚ) (g : GameState) :
    (update w h dt g).dx =
      (if (posUpdate dt g).x - g.radius ≤ 0 ∨ (posUpdate dt g).x + g.radius ≥ w
       then -g.dx else g.dx) ∧
    (update w h dt g).dy =
      (if (posUpdate dt g).y - g.radius ≤ 0 ∨ (posUpdate dt g).y + g.radius ≥ h
       then -g.dy else g.dy) :=
  ⟨rfl, rfl⟩

/-- C3: with viewport 360×240, radius 16, position (180, 120), velocity
(3, -2), speed 20 and elapsed time 0.1 s, one update yields position
(186, 116) with velocity unchanged; the boundary check fires on neither
axis at the new position. -/
theorem c3_concrete_scenario :
    update 360 240 (1/10) ⟨180, 120, 3, -2, 16, 20⟩ =
      ⟨186, 116, 3, -2, 16, 20⟩ ∧
    boundaryCheck 360 240 ⟨186, 116, 3, -2, 16, 20⟩ =
      ⟨186, 116, 3, -2, 16, 20⟩ := by
  constructor <;>
  · simp only [update, posUpdate, boundaryCheck, GameState.mk.injEq]
    norm_num

/-- C4: from any state with `x = 2`, `radius = 16`, `dx < 0` and any
`speed ≥ 0`, `dt ≥ 0`, the advanced position satisfies
`x - radius ≤ 0`, so the update callback negates `dx`. -/
theorem c4_left_wall_bounce (w h dt : ℚ) (g : GameState)
    (hx : g.x = 2) (hr : g.radius = 16) (hdx : g.dx < 0)
    (hs : 0 ≤ g.speed) (hdt : 0 ≤ dt) :
    (posUpdate dt g).x - g.radius ≤ 0 ∧ (update w h dt g).dx = -g.dx := by
  have hmul : g.speed * g.dx * dt ≤ 0 :=
    mul_nonpos_of_nonpos_of_nonneg
      (mul_nonpos_of_nonneg_of_nonpos hs (le_of_lt hdx)) hdt
  have hcond : (posUpdate dt g).x - g.radius ≤ 0 := by
    show g.x + g.speed * g.dx * dt - g.radius ≤ 0
    rw [hx, hr]
    linarith
  refine ⟨hcond, ?_⟩
  show (if (posUpdate dt g).x - g.radius ≤ 0 ∨
          (posUpdate dt g).x + g.radius ≥ w
        then -g.dx else g.dx) = -g.dx
  rw [if_pos (Or.inl hcond)]

/-- Witness for C4: `x = 2`, `dx = -1`, `speed = 20`, `dt = 1`. -/
theorem c4_left_wall_bounce_witness :
    (posUpdate 1 ⟨2, 120, -1, 0, 16, 20⟩).x - 16 ≤ 0 ∧
    (update 360 240 1 ⟨2, 120, -1, 0, 16, 20⟩).dx = -(-1) :=
  c4_left_wall_bounce 360 240 1 ⟨2, 120, -1, 0, 16, 20⟩
    rfl rfl (by norm_num) (by norm_num) (by norm_num)

/-- C5: the draw callback never writes the state, so calling it twice with
no intervening update leaves the state fixed and produces the same
command list both times. -/
theorem c5_draw_idempotent (g : GameState) :
    (drawStep ((drawStep g).1)).2 = (drawStep g).2 ∧
    (drawStep g).1 = g ∧ (drawStep ((drawStep g).1)).1 = g :=
  ⟨rfl, rfl, rfl⟩

/-- C6: for every state whose radius constant is 16 (as set at
initialization), one call of the draw callback issues exactly, in order,
`cls(2)`, `circ(x, y, 16, 1)` and
`text(100, 50, 'Welcome to the passion engine!', 15)`, and returns the
state unchanged. -/
theorem c6_draw_commands (g : GameState) (hr : g.radius = 16) :
    drawCalls g =
      [DrawCall.cls 2, DrawCall.circ g.x g.y 16 1,
       DrawCall.text 100 50 "Welcome to the passion engine!" 15] ∧
    (drawStep g).1 = g := by
  refine ⟨?_, rfl⟩
  simp [drawCalls, hr]

/-- Witness for C6 at the initial centre state. -/
theorem c6_draw_commands_witness :
    drawCalls ⟨180, 120, 3, -2, 16, 20⟩ =
      [DrawCall.cls 2, DrawCall.circ 180 120 16 1,
       DrawCall.text 100 50 "Welcome to the passion engine!" 15] ∧
    (drawStep ⟨180, 120, 3, -2, 16, 20⟩).1 = ⟨180, 120, 3, -2, 16, 20⟩ :=
  c6_draw_commands ⟨180, 120, 3, -2, 16, 20⟩ rfl

/-- C7: when the element lookup yields `none` the handler emits nothing —
no engine construction, no `system.init`, no `system.run`, and no
diagnostic; when it yields an element, the engine is constructed,
initialized, and `system.run` registers both callbacks. -/
theorem c7_setup_gating :
    onDOMContentLoaded none = [] ∧
    onDOMContentLoaded (some ()) =
      [SetupEvent.engineConstructed,
       SetupEvent.systemInit 360 240 "My first, but wonderful game!",
       SetupEvent.systemRun] ∧
    ∀ msg : String,
      SetupEvent.diagnostic msg ∉ onDOMContentLoaded none ∧
      SetupEvent.diagnostic msg ∉ onDOMContentLoaded (some ()) := by
  refine ⟨rfl, rfl, fun msg => ⟨?_, ?_⟩⟩ <;> simp [onDOMContentLoaded]

/-- C8: initialization makes exactly two `rndi(-5, 5)` calls, whose
results (the first two oracle values) become `dx` and `dy`; under the
engine's contract that each result lies in `[-5, 5]`, both velocity
components lie in `[-5, 5]`. -/
theorem c8_initial_velocity (r : RndState) (h0 : r.calls = 0)
    (hrange : ∀ n, -5 ≤ r.seq n ∧ r.seq n ≤ 5) :
    (initBall r).2.calls = 2 ∧
    (initBall r).1.dx = ((r.seq 0 : ℤ) : ℚ) ∧
    (initBall r).1.dy = ((r.seq 1 : ℤ) : ℚ) ∧
    -5 ≤ (initBall r).1.dx ∧ (initBall r).1.dx ≤ 5 ∧
    -5 ≤ (initBall r).1.dy ∧ (initBall r).1.dy ≤ 5 := by
  obtain ⟨seq, calls⟩ := r
  dsimp at h0
  subst h0
  refine ⟨rfl, rfl, rfl, ?_, ?_, ?_, ?_⟩ <;>
    simp only [initBall, rndi] <;>
    exact_mod_cast (by first
      | exact (hrange 0).1 | exact (hrange 0).2
      | exact (hrange 1).1 | exact (hrange 1).2)

/-- Witness for C8 with the constant oracle 3. -/
theorem c8_initial_velocity_witness :
    (initBall ⟨fun _ => 3, 0⟩).2.calls = 2 ∧
    (initBall ⟨fun _ => 3, 0⟩).1.dx = ((3 : ℤ) : ℚ) ∧
    (initBall ⟨fun _ => 3, 0⟩).1.dy = ((3 : ℤ) : ℚ) ∧
    -5 ≤ (initBall ⟨fun _ => 3, 0⟩).1.dx ∧
    (initBall ⟨fun _ => 3, 0⟩).1.dx ≤ 5 ∧
    -5 ≤ (initBall ⟨fun _ => 3, 0⟩).1.dy ∧
    (initBall ⟨fun _ => 3, 0⟩).1.dy ≤ 5 :=
  c8_initial_velocity ⟨fun _ => 3, 0⟩ rfl
    (fun _ => ⟨by norm_num, by norm_num⟩)

/-- C9: the update callback writes only position and velocity — the radius
and speed constants survive every update — and the draw callback writes
nothing at all. -/
theorem c9_constants_preserved (w h dt : ℚ) (g : GameState) :
    (update w h dt g).radius = g.radius ∧
    (update w h dt g).speed = g.speed ∧
    (drawStep g).1 = g :=
  ⟨rfl, rfl, rfl⟩

/-- C10: every update keeps or negates each velocity component, so `|dx|`
and `|dy|` are invariants of any sequence of updates; a component that
starts at 0 stays 0 and its axis position never changes, on either
axis. -/
theorem c10_speed_invariant (w h : ℚ) (dts : List ℚ) (g : GameState) :
    (∀ dt, |(update w h dt g).dx| = |g.dx| ∧
      |(update w h dt g).dy| = |g.dy|) ∧
    |(runUpdates w h dts g).dx| = |g.dx| ∧
    |(runUpdates w h dts g).dy| = |g.dy| ∧
    (g.dx = 0 →
      (runUpdates w h dts g).dx = 0 ∧ (runUpdates w h dts g).x = g.x) ∧
    (g.dy = 0 →
      (runUpdates w h dts g).dy = 0 ∧ (runUpdates w h dts g).y = g.y) :=
  ⟨fun dt => update_abs_velocity w h dt g,
   (runUpdates_abs_velocity w h dts g).1,
   (runUpdates_abs_velocity w h dts g).2,
   fun h0 => runUpdates_zero_dx w h dts g h0,
   fun h0 => runUpdates_zero_dy w h dts g h0⟩

/-- Witness for C10: a ball starting with `dx = 0` at `x = 7` still has
`dx = 0` and `x = 7` after two updates, and one starting with `dy = 0` at
`y = 8` still has `dy = 0` and `y = 8` after two updates. -/
theorem c10_speed_invariant_witness :
    ((runUpdates 360 240 [1, 2] ⟨7, 8, 0, 2, 16, 20⟩).dx = 0 ∧
     (runUpdates 360 240 [1, 2] ⟨7, 8, 0, 2, 16, 20⟩).x = 7) ∧
    ((runUpdates 360 240 [1, 2] ⟨7, 8, 2, 0, 16, 20⟩).dy = 0 ∧
     (runUpdates 360 240 [1, 2] ⟨7, 8, 2, 0, 16, 20⟩).y = 8) :=
  ⟨(c10_speed_invariant 360 240 [1, 2] ⟨7, 8, 0, 2, 16, 20⟩).2.2.2.1 rfl,
   (c10_speed_invariant 360 240 [1, 2] ⟨7, 8, 2, 0, 16, 20⟩).2.2.2.2 rfl⟩
